import Mathlib

set_option maxRecDepth 10000

/-
  Verification development for the OAuth authorization bridge of the
  flodesk remote MCP server.

  Shallow embedding conventions:
  * JS strings that participate in HTTP handling are Lean `String`s.
  * The approval-cookie machinery (workers-oauth-utils.ts) works on character
    sequences modelled as `List Nat` (code points).  The browser built-ins
    `btoa(JSON.stringify list)` / `JSON.parse(atob payload)` are modelled by a
    concrete injective serialisation `encodeClientIds` with partial inverse
    `decodeClientIds`; like real base64-of-JSON output, the serialised payload
    never contains the code point 46 (the dot used as cookie separator).
  * HMAC-SHA256 (crypto.subtle.sign/verify) is modelled by the concrete
    deterministic keyed function `macModel`; the source treats the MAC as an
    opaque function of (key, message) and only compares outputs for equality,
    which is exactly how the model is used.
  * The Workers KV store is an association list from full string keys
    (prefixes "session:", "mcp_token:", "client:") to structured values.
  * fetch results from the upstream identity provider are passed to the
    handlers as explicit oracle arguments, as are the random ids produced by
    crypto.randomUUID and the clock value Date.now().
-/

namespace FlodeskMcp

/-! ## Approval cookie codec (model of btoa/JSON.stringify and atob/JSON.parse
    from workers-oauth-utils.ts) -/

/-- Serialise one code point: a unary run of 49s closed by a 44. -/
def encNat (b : Nat) : List Nat := List.replicate b 49 ++ [44]

/-- Serialise the body of one client-id string. -/
def encStrBody (s : List Nat) : List Nat := s.foldr (fun b acc => encNat b ++ acc) []

/-- Serialise one client-id string, closed by a 59. -/
def encStr (s : List Nat) : List Nat := encStrBody s ++ [59]

/-- Model of btoa(JSON.stringify list): an injective serialisation of a list of
    client-id strings whose output never contains the dot code point 46. -/
def encodeClientIds (l : List (List Nat)) : List Nat := l.foldr (fun s acc => encStr s ++ acc) []

/-- Deserialiser worker: cnt is the pending unary count, cur the current
    string, acc the finished strings in reverse order. -/
def decAux : List Nat → Nat → List Nat → List (List Nat) → Option (List (List Nat))
  | [], cnt, cur, acc => if cnt = 0 ∧ cur = [] then some acc.reverse else none
  | c :: rest, cnt, cur, acc =>
    if c = 49 then decAux rest (cnt + 1) cur acc
    else if c = 44 then decAux rest 0 (cur ++ [cnt]) acc
    else if c = 59 then (if cnt = 0 then decAux rest 0 [] (cur :: acc) else none)
    else none

/-- Model of JSON.parse(atob payload): total partial inverse of
    `encodeClientIds`; malformed payloads yield none (the JS exception is
    caught by the callers). -/
def decodeClientIds (cs : List Nat) : Option (List (List Nat)) := decAux cs 0 [] []

/-- Model of btoa over raw MAC bytes (signature half of the cookie). -/
def encBytes (bs : List Nat) : List Nat := encStrBody bs

/-- Deserialiser worker for the signature bytes. -/
def decBytesAux : List Nat → Nat → List Nat → Option (List Nat)
  | [], cnt, acc => if cnt = 0 then some acc else none
  | c :: rest, cnt, acc =>
    if c = 49 then decBytesAux rest (cnt + 1) acc
    else if c = 44 then decBytesAux rest 0 (acc ++ [cnt])
    else none

/-- Model of atob over the signature half; malformed input yields none. -/
def decBytes (cs : List Nat) : Option (List Nat) := decBytesAux cs 0 []

/-- Model of HMAC-SHA256: a concrete deterministic keyed MAC.  The handlers
    never inspect MAC output beyond comparing it for equality, so any
    deterministic function is a faithful model of that usage. -/
def macModel (key msg : List Nat) : List Nat :=
  [msg.foldl (fun a b => (a * 31 + b + key.foldl (fun x y => x + y) 0) % 251)
    ((5381 + key.length) % 251), msg.length % 251]

/-- Model of JS String.prototype.split on the dot character (code point 46). -/
def splitOnDots : List Nat → List (List Nat)
  | [] => [[]]
  | c :: rest =>
    if c = 46 then [] :: splitOnDots rest
    else
      match splitOnDots rest with
      | [] => [[c]]
      | p :: ps => (c :: p) :: ps

/-- sign: payload, dot, base64 of HMAC over the payload characters
    (cookie construction in parseRedirectApproval). -/
def signCookie (key : List Nat) (l : List (List Nat)) : List Nat :=
  encodeClientIds l ++ 46 :: encBytes (macModel key (encodeClientIds l))

/-- verify: split the cookie on dots, take the first two components, decode the
    signature, compare the MAC over the payload characters and parse the
    payload (shared logic of clientIdAlreadyApproved and
    parseRedirectApproval); any failure yields none instead of an exception. -/
def verifyCookie (key c : List Nat) : Option (List (List Nat)) :=
  match splitOnDots c with
  | p :: s :: _ =>
    match decBytes s with
    | none => none
    | some sigBytes => if sigBytes = macModel key p then decodeClientIds p else none
  | _ => none

/-! ### Codec lemmas -/

theorem decAux_encNat (b : Nat) :
    ∀ rest cnt cur acc, decAux (encNat b ++ rest) cnt cur acc
      = decAux rest 0 (cur ++ [cnt + b]) acc := by
  induction b with
  | zero => intro rest cnt cur acc; simp [encNat, decAux]
  | succ n ih =>
    intro rest cnt cur acc
    have h1 : encNat (n + 1) ++ rest = 49 :: (encNat n ++ rest) := by
      simp [encNat, List.replicate_succ]
    rw [h1]
    show decAux (encNat n ++ rest) (cnt + 1) cur acc = _
    rw [ih rest (cnt + 1) cur acc]
    have h2 : cnt + 1 + n = cnt + (n + 1) := by omega
    rw [h2]

theorem decAux_encStrBody (s : List Nat) :
    ∀ rest cur acc, decAux (encStrBody s ++ rest) 0 cur acc
      = decAux rest 0 (cur ++ s) acc := by
  induction s with
  | nil => intro rest cur acc; simp [encStrBody]
  | cons b t ih =>
    intro rest cur acc
    have h1 : encStrBody (b :: t) ++ rest = encNat b ++ (encStrBody t ++ rest) := by
      simp [encStrBody, List.append_assoc]
    rw [h1, decAux_encNat, ih]
    simp

theorem decAux_encStr (s : List Nat) (rest : List Nat) (cur : List Nat)
    (acc : List (List Nat)) :
    decAux (encStr s ++ rest) 0 cur acc = decAux rest 0 [] ((cur ++ s) :: acc) := by
  have h1 : encStr s ++ rest = encStrBody s ++ (59 :: rest) := by
    simp [encStr, List.append_assoc]
  rw [h1, decAux_encStrBody]
  simp [decAux]

theorem decAux_encodeClientIds (l : List (List Nat)) :
    ∀ rest acc, decAux (encodeClientIds l ++ rest) 0 [] acc
      = decAux rest 0 [] (l.reverse ++ acc) := by
  induction l with
  | nil => intro rest acc; simp [encodeClientIds]
  | cons s t ih =>
    intro rest acc
    have h1 : encodeClientIds (s :: t) ++ rest = encStr s ++ (encodeClientIds t ++ rest) := by
      simp [encodeClientIds, List.append_assoc]
    rw [h1, decAux_encStr, ih]
    simp

theorem decode_encode (l : List (List Nat)) : decodeClientIds (encodeClientIds l) = some l := by
  have h1 : encodeClientIds l = encodeClientIds l ++ [] := by simp
  rw [decodeClientIds, h1, decAux_encodeClientIds]
  simp [decAux]

theorem decBytesAux_encNat (b : Nat) :
    ∀ rest cnt acc, decBytesAux (encNat b ++ rest) cnt acc
      = decBytesAux rest 0 (acc ++ [cnt + b]) := by
  induction b with
  | zero => intro rest cnt acc; simp [encNat, decBytesAux]
  | succ n ih =>
    intro rest cnt acc
    have h1 : encNat (n + 1) ++ rest = 49 :: (encNat n ++ rest) := by
      simp [encNat, List.replicate_succ]
    rw [h1]
    show decBytesAux (encNat n ++ rest) (cnt + 1) acc = _
    rw [ih rest (cnt + 1) acc]
    have h2 : cnt + 1 + n = cnt + (n + 1) := by omega
    rw [h2]

theorem decBytesAux_encBytes (bs : List Nat) :
    ∀ rest acc, decBytesAux (encBytes bs ++ rest) 0 acc = decBytesAux rest 0 (acc ++ bs) := by
  induction bs with
  | nil => intro rest acc; simp [encBytes, encStrBody]
  | cons b t ih =>
    intro rest acc
    have h1 : encBytes (b :: t) ++ rest = encNat b ++ (encBytes t ++ rest) := by
      simp [encBytes, encStrBody, List.append_assoc]
    rw [h1, decBytesAux_encNat, ih]
    simp

theorem decBytes_encBytes (bs : List Nat) : decBytes (encBytes bs) = some bs := by
  have h1 : encBytes bs = encBytes bs ++ [] := by simp
  rw [decBytes, h1, decBytesAux_encBytes]
  simp [decBytesAux]

theorem not_dot_mem_encNat (b : Nat) : 46 ∉ encNat b := by
  intro h
  rcases List.mem_append.mp h with h1 | h1
  · exact absurd (List.eq_of_mem_replicate h1) (by omega)
  · simp at h1

theorem not_dot_mem_encStrBody (s : List Nat) : 46 ∉ encStrBody s := by
  induction s with
  | nil => simp [encStrBody]
  | cons b t ih =>
    intro h
    have h1 : encStrBody (b :: t) = encNat b ++ encStrBody t := rfl
    rw [h1] at h
    rcases List.mem_append.mp h with h2 | h2
    · exact not_dot_mem_encNat b h2
    · exact ih h2

theorem not_dot_mem_encStr (s : List Nat) : 46 ∉ encStr s := by
  intro h
  rcases List.mem_append.mp h with h1 | h1
  · exact not_dot_mem_encStrBody s h1
  · simp at h1

theorem not_dot_mem_encodeClientIds (l : List (List Nat)) : 46 ∉ encodeClientIds l := by
  induction l with
  | nil => simp [encodeClientIds]
  | cons s t ih =>
    intro h
    have h1 : encodeClientIds (s :: t) = encStr s ++ encodeClientIds t := rfl
    rw [h1] at h
    rcases List.mem_append.mp h with h2 | h2
    · exact not_dot_mem_encStr s h2
    · exact ih h2

theorem splitOnDots_no_dot (s : List Nat) (h : 46 ∉ s) : splitOnDots s = [s] := by
  induction s with
  | nil => rfl
  | cons c t ih =>
    have hc : c ≠ 46 := fun hce => h (hce ▸ List.mem_cons_self c t)
    have ht : 46 ∉ t := fun hm => h (List.mem_cons_of_mem c hm)
    rw [splitOnDots, if_neg hc, ih ht]

theorem splitOnDots_append_dot (a b : List Nat) (h : 46 ∉ a) :
    splitOnDots (a ++ 46 :: b) = a :: splitOnDots b := by
  induction a with
  | nil => simp [splitOnDots]
  | cons c t ih =>
    have hc : c ≠ 46 := fun hce => h (hce ▸ List.mem_cons_self c t)
    have ht : 46 ∉ t := fun hm => h (List.mem_cons_of_mem c hm)
    have h1 : (c :: t) ++ 46 :: b = c :: (t ++ 46 :: b) := rfl
    rw [h1, splitOnDots, if_neg hc, ih ht]

theorem verify_sign (key : List Nat) (l : List (List Nat)) :
    verifyCookie key (signCookie key l) = some l := by
  have hsplit : splitOnDots (signCookie key l)
      = encodeClientIds l :: splitOnDots (encBytes (macModel key (encodeClientIds l))) := by
    exact splitOnDots_append_dot _ _ (not_dot_mem_encodeClientIds l)
  have hsig : splitOnDots (encBytes (macModel key (encodeClientIds l)))
      = [encBytes (macModel key (encodeClientIds l))] :=
    splitOnDots_no_dot _ (not_dot_mem_encStrBody _)
  rw [verifyCookie, hsplit, hsig]
  simp [decBytes_encBytes, decode_encode]

theorem verifyCookie_inversion (key c : List Nat) (l : List (List Nat))
    (h : verifyCookie key c = some l) :
    ∃ p s rest, splitOnDots c = p :: s :: rest ∧
      decBytes s = some (macModel key p) ∧ decodeClientIds p = some l := by
  rw [verifyCookie] at h
  rcases hs : splitOnDots c with _ | ⟨p, _ | ⟨s, rest⟩⟩
  · rw [hs] at h; exact absurd h (by simp)
  · rw [hs] at h; exact absurd h (by simp)
  · rw [hs] at h
    have h2 : (match decBytes s with
      | none => none
      | some sigBytes =>
        if sigBytes = macModel key p then decodeClientIds p else none) = some l := h
    rcases hd : decBytes s with _ | sigBytes
    · rw [hd] at h2; exact absurd h2 (by simp)
    · rw [hd] at h2
      have h3 : (if sigBytes = macModel key p then decodeClientIds p else none) = some l := h2
      by_cases hm : sigBytes = macModel key p
      · rw [if_pos hm] at h3
        exact ⟨p, s, rest, rfl, hm ▸ hd, h3⟩
      · rw [if_neg hm] at h3; exact absurd h3 (by simp)

/-! ## Approval bookkeeping (workers-oauth-utils.ts) -/

/-- Character codes of the string approve (the form action value). -/
def approveAction : List Nat := [97, 112, 112, 114, 111, 118, 101]

/-- Model of clientIdAlreadyApproved: read the mcp-approved-clients cookie
    value (cookie-header splitting elided: the caller passes the extracted
    value or none), verify the signature, parse the list, and test membership;
    every failure path of the source ends in false via its try/catch. -/
def clientIdAlreadyApprovedM (key : List Nat) (cookieVal : Option (List Nat))
    (clientId : List Nat) : Bool :=
  match cookieVal with
  | none => false
  | some c =>
    match verifyCookie key c with
    | none => false
    | some approvedList => approvedList.contains clientId

/-- Prior approved-client list recovered inside parseRedirectApproval: a
    missing cookie or any verification/parse failure starts the list fresh. -/
def recoverApproved (key : List Nat) (cookieVal : Option (List Nat)) : List (List Nat) :=
  match cookieVal with
  | none => []
  | some c => (verifyCookie key c).getD []

/-- Result of parseRedirectApproval: the updatedCookie field holds the signed
    cookie value (the Path/HttpOnly/Expires attributes of the Set-Cookie
    string are elided). -/
structure ApprovalResult where
  approved : Bool
  clientId : List Nat
  updatedCookie : Option (List Nat)
deriving DecidableEq

/-- Model of parseRedirectApproval from workers-oauth-utils.ts. -/
def parseRedirectApprovalM (key : List Nat) (formClientId formAction : Option (List Nat))
    (cookieVal : Option (List Nat)) : ApprovalResult :=
  match formClientId with
  | none => { approved := false, clientId := [], updatedCookie := none }
  | some cid =>
    if cid = [] ∨ formAction ≠ some approveAction then
      { approved := false, clientId := cid, updatedCookie := none }
    else
      let approvedClients := recoverApproved key cookieVal
      let newClients :=
        if cid ∈ approvedClients then approvedClients else approvedClients ++ [cid]
      { approved := true, clientId := cid, updatedCookie := some (signCookie key newClients) }

/-! ## KV store (FLODESK_KV, prefixed string keys) -/

/-- AuthorizationSession record stored under a session: key (github-handler.ts
    stores it as JSON; a missing mcpClientRequest field is the false case and a
    missing optional field is none). -/
structure SessionData where
  mcpClientRequest : Bool
  mcpRedirectUri : String
  mcpState : String
  mcpClientId : String
  codeChallenge : Option String
  codeChallengeMethod : Option String
  timestamp : Nat
deriving DecidableEq

/-- IssuedToken record stored under an mcp_token: key.  The GitHub user object
    is kept to the fields the handlers read. -/
structure TokenRecord where
  githubToken : String
  userLogin : String
  userEmail : String
  createdAt : Nat
deriving DecidableEq

/-- Values living in the shared KV namespace. -/
inductive KVValue where
  | session (sd : SessionData)
  | token (td : TokenRecord)
  | client (doc : String)
deriving DecidableEq

/-- The KV namespace: newest binding first; get returns the first match, so a
    put shadows older bindings (TTL bookkeeping is carried by the createdAt
    and timestamp fields and checked lazily by the handlers). -/
abbrev KV := List (String × KVValue)

/-- Model of FLODESK_KV.get: first binding for the key wins. -/
def kvGet (kv : KV) (k : String) : Option KVValue :=
  match kv with
  | [] => none
  | p :: t => if p.1 = k then some p.2 else kvGet t k

/-- Model of FLODESK_KV.put. -/
def kvPut (kv : KV) (k : String) (v : KVValue) : KV := (k, v) :: kv

/-- Model of FLODESK_KV.delete. -/
def kvDelete (kv : KV) (k : String) : KV :=
  match kv with
  | [] => []
  | p :: t => if p.1 = k then kvDelete t k else p :: kvDelete t k

/-- Read and parse an AuthorizationSession; a value of another shape parses to
    JSON without an mcpRedirectUri field, which the callers treat exactly like
    a missing session. -/
def getSession (kv : KV) (sid : String) : Option SessionData :=
  match kvGet kv (String.append "session:" sid) with
  | some (KVValue.session sd) => some sd
  | _ => none

/-- Read and parse an IssuedToken. -/
def getToken (kv : KV) (tok : String) : Option TokenRecord :=
  match kvGet kv (String.append "mcp_token:" tok) with
  | some (KVValue.token td) => some td
  | _ => none

theorem kvGet_kvDelete_self (kv : KV) (k : String) : kvGet (kvDelete kv k) k = none := by
  induction kv with
  | nil => rfl
  | cons p t ih =>
    by_cases h : p.1 = k
    · simpa [kvDelete, h] using ih
    · simpa [kvDelete, kvGet, h] using ih

theorem kvGet_kvDelete_other (kv : KV) (k k2 : String) (h : k2 ≠ k) :
    kvGet (kvDelete kv k) k2 = kvGet kv k2 := by
  induction kv with
  | nil => rfl
  | cons p t ih =>
    have hne : k ≠ k2 := fun he => h he.symm
    by_cases hp : p.1 = k
    · simpa [kvDelete, kvGet, hp, hne] using ih
    · by_cases hk2 : p.1 = k2
      · simp [kvDelete, kvGet, hp, hk2, h]
      · simpa [kvDelete, kvGet, hp, hk2] using ih

/-! ## HTTP layer -/

/-- Response bodies, structured by their JSON/HTML shape in the source. -/
inductive Body where
  | empty
  | text (s : String)
  | jsonError (error : String)
  | jsonErrorDesc (error errorDescription : String)
  | tokenJson (accessToken tokenType : String) (expiresIn : Nat)
  | successHtml (token : String)
  | consentHtml (clientId : List Nat)
deriving DecidableEq

/-- The parts of a Response the claims talk about (status, body, Location). -/
structure HttpResponse where
  status : Nat
  body : Body
  location : Option String
deriving DecidableEq

/-- JS truthiness for an optional string parameter: null and the empty string
    are both falsy. -/
def falsy : Option String → Bool
  | none => true
  | some s => s == ""

/-- Substring test on character lists (model of String.prototype.includes). -/
def listContainsSub : List Char → List Char → Bool
  | _, [] => true
  | [], _ :: _ => false
  | h :: t, n :: m => ((n :: m).isPrefixOf (h :: t)) || listContainsSub t (n :: m)

/-- Model of String.prototype.includes. -/
def strContains (hay needle : String) : Bool := listContainsSub hay.data needle.data

/-- Model of responseText.substring(0, 100). -/
def take100 (s : String) : String := String.mk (s.data.take 100)

/-- Model of url.searchParams.set on the downstream redirect URI: appends the
    code and state pairs (percent-encoding elided). -/
def setCodeAndState (uri code st : String) : String :=
  uri ++ (if uri.data.contains '?' then "&" else "?") ++ "code=" ++ code ++ "&state=" ++ st

/-- The GitHub authorization URL built by handleAuthorize (parameter order of
    the source; percent-encoding elided). -/
def githubAuthUrl (ghClientId origin sessionId : String) : String :=
  "https://github.com/login/oauth/authorize?client_id=" ++ ghClientId ++
    "&redirect_uri=" ++ origin ++ "/callback&state=" ++ sessionId ++ "&scope=user:email"

/-! ## GitHub handler (remote-mcp-servers/flodesk-remote-mcp/src/github-handler.ts) -/

/-- Outcome of the upstream code-for-token exchange fetch, as observed by
    handleCallback: a non-ok HTTP response, an unparsable body, a JSON error
    payload, or the granted access token. -/
inductive UpTokenResult where
  | httpError (status : Nat) (bodyText : String)
  | badJson (text : String)
  | oauthError (e : String)
  | ok (accessToken : String)
deriving DecidableEq

/-- Outcome of the upstream profile fetch. -/
inductive UserFetchResult where
  | httpError (status : Nat) (bodyText : String)
  | ok (userLogin userEmail : String)
deriving DecidableEq

/-- Model of GitHubOAuthHandler.handleToken.  The form fields arrive as
    optional strings; minted is irrelevant here; the store is returned
    unchanged on every path because the handler only reads it. -/
def handleToken (method : String) (grantType code clientId : Option String)
    (kv : KV) : HttpResponse × KV :=
  if method ≠ "POST" then
    ({ status := 405, body := Body.text "Method not allowed", location := none }, kv)
  else if grantType ≠ some "authorization_code" ∨ falsy code ∨ falsy clientId then
    ({ status := 400, body := Body.jsonError "invalid_request", location := none }, kv)
  else if (kvGet kv (String.append "mcp_token:" (code.getD ""))).isSome then
    ({ status := 200, body := Body.tokenJson (code.getD "") "Bearer" 604800,
       location := none }, kv)
  else
    ({ status := 400, body := Body.jsonError "invalid_grant", location := none }, kv)

/-- Model of GitHubOAuthHandler.verifyToken: lazy expiry check with
    deletion-on-read; any parse failure yields none. -/
def verifyToken (kv : KV) (tok : String) (now : Nat) : Option TokenRecord × KV :=
  match kvGet kv (String.append "mcp_token:" tok) with
  | some (KVValue.token d) =>
    if now - d.createdAt > 7 * 24 * 60 * 60 * 1000 then
      (none, kvDelete kv (String.append "mcp_token:" tok))
    else
      (some d, kv)
  | _ => (none, kv)

/-- Model of GitHubOAuthHandler.handleCallback.  codeQ, stateQ, errQ are the
    query parameters; tokRes and userRes are the observed upstream fetch
    outcomes; minted is the value of generateAccessToken(); now is
    Date.now().  Every throw inside the try lands in the catch, which wraps
    the error message into a 500 text response. -/
def handleCallback (codeQ stateQ errQ : Option String) (kv : KV)
    (tokRes : UpTokenResult) (userRes : UserFetchResult)
    (minted : String) (now : Nat) : HttpResponse × KV :=
  if falsy errQ = false then
    ({ status := 400, body := Body.text (String.append "OAuth error: " (errQ.getD "")),
       location := none }, kv)
  else if falsy codeQ ∨ falsy stateQ then
    ({ status := 400, body := Body.text "Missing code or state", location := none }, kv)
  else
    match getSession kv (stateQ.getD "") with
    | none => ({ status := 400, body := Body.text "Invalid session", location := none }, kv)
    | some sd =>
      if sd.mcpRedirectUri = "" then
        ({ status := 400, body := Body.text "Invalid session", location := none }, kv)
      else
        match tokRes with
        | UpTokenResult.httpError st bodyText =>
          ({ status := 500,
             body := Body.text ("OAuth error: GitHub token exchange failed: " ++
               toString st ++ " " ++ bodyText),
             location := none }, kv)
        | UpTokenResult.badJson t =>
          ({ status := 500,
             body := Body.text ("OAuth error: Invalid response from GitHub: " ++ take100 t),
             location := none }, kv)
        | UpTokenResult.oauthError e =>
          ({ status := 500,
             body := Body.text ("OAuth error: GitHub OAuth error: " ++ e),
             location := none }, kv)
        | UpTokenResult.ok accessToken =>
          match userRes with
          | UserFetchResult.httpError st bodyText =>
            ({ status := 500,
               body := Body.text ("OAuth error: GitHub user info failed: " ++
                 toString st ++ " " ++ bodyText),
               location := none }, kv)
          | UserFetchResult.ok login email =>
            let td : TokenRecord :=
              { githubToken := accessToken, userLogin := login,
                userEmail := email, createdAt := now }
            let kv2 := kvPut kv (String.append "mcp_token:" minted) (KVValue.token td)
            if sd.mcpClientRequest ∨ strContains sd.mcpRedirectUri "localhost" ∨
                strContains sd.mcpRedirectUri "callback" then
              ({ status := 200, body := Body.successHtml minted, location := none }, kv2)
            else
              ({ status := 302, body := Body.empty,
                 location := some (setCodeAndState sd.mcpRedirectUri minted sd.mcpState) },
               kv2)

/-- The /authorize parameters after body/query parsing (a parse failure or an
    unknown content type leaves them all none, as in the source). -/
structure AuthorizeParams where
  clientId : Option String
  redirectUri : Option String
  state : Option String
  responseType : Option String
  codeChallenge : Option String
  codeChallengeMethod : Option String
deriving DecidableEq

/-- The state value after the missing-state accommodation of handleAuthorize
    (a fresh id is generated when the three main parameters are valid but no
    state was supplied). -/
def stateAfterGen (p : AuthorizeParams) (genState : String) : Option String :=
  if falsy p.clientId = false ∧ falsy p.redirectUri = false ∧
      p.responseType = some "code" ∧ falsy p.state then
    some genState
  else p.state

/-- Model of GitHubOAuthHandler.handleAuthorize.  genState and genSession are
    the values of the two potential generateSessionId() calls; origin is
    requestUrl.origin; ghClientId is env.GITHUB_CLIENT_ID. -/
def handleAuthorize (method : String) (p : AuthorizeParams)
    (ghClientId origin genState genSession : String) (now : Nat) (kv : KV) :
    HttpResponse × KV :=
  if method ≠ "GET" ∧ method ≠ "POST" then
    ({ status := 405,
       body := Body.jsonErrorDesc "method_not_allowed"
         ("Method " ++ method ++ " not allowed. Use GET or POST."),
       location := none }, kv)
  else
    let state1 := stateAfterGen p genState
    if method = "POST" ∧ (falsy p.clientId ∨ falsy p.redirectUri ∨ falsy state1) then
      let sd : SessionData :=
        { mcpClientRequest := true, mcpRedirectUri := String.append origin "/callback",
          mcpState := genSession, mcpClientId := "mcp_client",
          codeChallenge := none, codeChallengeMethod := none, timestamp := now }
      ({ status := 302, body := Body.empty,
         location := some (githubAuthUrl ghClientId origin genSession) },
       kvPut kv (String.append "session:" genSession) (KVValue.session sd))
    else if falsy p.clientId ∨ falsy p.redirectUri ∨ p.responseType ≠ some "code" then
      ({ status := 400,
         body := Body.jsonErrorDesc "invalid_request"
           "Missing required parameters: client_id, redirect_uri, response_type=code",
         location := none }, kv)
    else
      let state2 := if falsy state1 then some genState else state1
      let sd : SessionData :=
        { mcpClientRequest := false, mcpRedirectUri := p.redirectUri.getD "",
          mcpState := state2.getD "", mcpClientId := p.clientId.getD "",
          codeChallenge := p.codeChallenge, codeChallengeMethod := p.codeChallengeMethod,
          timestamp := now }
      ({ status := 302, body := Body.empty,
         location := some (githubAuthUrl ghClientId origin genSession) },
       kvPut kv (String.append "session:" genSession) (KVValue.session sd))

/-! ## Google handler (src/google-handler.ts with src utils) -/

/-- Model of getUpstreamAuthorizeUrl from the utils module (URLSearchParams
    order of the source; percent-encoding elided). -/
def getUpstreamAuthorizeUrl (upstreamUrl clientId redirectUri scope state : String)
    (hostedDomain : Option String) : String :=
  upstreamUrl ++ "?response_type=code&client_id=" ++ clientId ++ "&redirect_uri=" ++
    redirectUri ++ "&scope=" ++ scope ++ "&state=" ++ state ++
    (match hostedDomain with
     | some hd => String.append "&hd=" hd
     | none => "")

/-- JS truthiness for an optional client-id character list. -/
def falsyL : Option (List Nat) → Bool
  | none => true
  | some l => l.isEmpty

/-- Model of the GET /authorize route of the Google handler: reject a missing
    client id, skip consent when the signed approval cookie already lists it,
    otherwise render the consent page.  The cookie value is passed extracted;
    gClientId, redirectUri and stateB64 are the upstream client id, the
    /callback URL and the base64-encoded downstream request used for the
    upstream redirect. -/
def googleAuthorizeGet (key : List Nat) (clientId : Option (List Nat))
    (cookieVal : Option (List Nat)) (gClientId redirectUri stateB64 : String) :
    HttpResponse :=
  if falsyL clientId then
    { status := 400, body := Body.text "Invalid request", location := none }
  else if clientIdAlreadyApprovedM key cookieVal (clientId.getD []) then
    { status := 302, body := Body.empty,
      location := some (getUpstreamAuthorizeUrl
        "https://accounts.google.com/o/oauth2/v2/auth" gClientId redirectUri
        "openid email profile" stateB64 none) }
  else
    { status := 200, body := Body.consentHtml (clientId.getD []), location := none }

/-- Outcome of fetchUpstreamAuthToken: either the non-ok upstream Response
    (status and body) or the access token. -/
inductive GoogleTokenResult where
  | error (status : Nat) (bodyText : String)
  | ok (accessToken : String)
deriving DecidableEq

/-- Outcome of the Google userinfo fetch. -/
inductive GoogleUserResult where
  | error (status : Nat) (bodyText : String)
  | ok (id name email : String)
deriving DecidableEq

/-- Model of the GET /callback route of the Google handler.  stateClientId is
    the clientId field of the decoded state; on a failed upstream exchange the
    handler returns the upstream error Response itself; redirectTo is the
    result of completeAuthorization. -/
def googleCallback (stateClientId : Option String) (codeQ : Option String)
    (tokRes : GoogleTokenResult) (userRes : GoogleUserResult)
    (redirectTo : String) : HttpResponse :=
  if falsy stateClientId then
    { status := 400, body := Body.text "Invalid state", location := none }
  else if falsy codeQ then
    { status := 400, body := Body.text "Missing code", location := none }
  else
    match tokRes with
    | GoogleTokenResult.error st bodyText =>
      { status := st, body := Body.text bodyText, location := none }
    | GoogleTokenResult.ok _ =>
      match userRes with
      | GoogleUserResult.error _ _ =>
        { status := 500, body := Body.text "Failed to fetch user info", location := none }
      | GoogleUserResult.ok _ _ _ =>
        { status := 302, body := Body.empty, location := some redirectTo }

/-! ## Claim theorems -/

/-- Session used in the C1 replay run. -/
def c1Session : SessionData :=
  { mcpClientRequest := false, mcpRedirectUri := "https://client.example/cb",
    mcpState := "xyz", mcpClientId := "cid", codeChallenge := none,
    codeChallengeMethod := none, timestamp := 0 }

/-- Store state before the first C1 callback. -/
def c1Kv0 : KV := [(String.append "session:" "s1", KVValue.session c1Session)]

/-- First C1 callback: state s1, successful upstream exchange, token
    mcp_tok1 minted at time 1000. -/
def c1Run1 : HttpResponse × KV :=
  handleCallback (some "upcode1") (some "s1") none c1Kv0
    (UpTokenResult.ok "gat1") (UserFetchResult.ok "octo" "octo@mail") "mcp_tok1" 1000

/-- Second C1 callback: the same state s1 replayed before any TTL expiry,
    with a fresh upstream code whose exchange succeeds. -/
def c1Run2 : HttpResponse × KV :=
  handleCallback (some "upcode2") (some "s1") none c1Run1.2
    (UpTokenResult.ok "gat2") (UserFetchResult.ok "octo" "octo@mail") "mcp_tok2" 2000

/-- C1: the spec requires that after a successful GET /callback the
    AuthorizationSession under session:state is no longer usable and a replay
    of the same state must fail without minting a second token.  The code
    never deletes the session, so on the concrete run the first callback
    succeeds (302), the session is still retrievable afterwards, and the
    replayed callback with the same state succeeds again (302) and stores a
    second IssuedToken mcp_tok2. -/
theorem c1_session_replay_mints_second_token :
    c1Run1.1.status = 302 ∧
    getSession c1Run1.2 "s1" = some c1Session ∧
    c1Run2.1.status = 302 ∧
    getToken c1Run2.2 "mcp_tok2" =
      some { githubToken := "gat2", userLogin := "octo", userEmail := "octo@mail",
             createdAt := 2000 } := by
  decide

/-- C2 counterexample: a stored session whose downstream redirect_uri is
    http://localhost:6274/cb, a successful upstream exchange and profile
    fetch, yet the response is a 200 HTML success page with no Location
    header, not the claimed 302 redirect. -/
theorem c2_localhost_success_page_counterexample :
    (handleCallback (some "up") (some "s1") none
        [(String.append "session:" "s1", KVValue.session
          { mcpClientRequest := false, mcpRedirectUri := "http://localhost:6274/cb",
            mcpState := "st7", mcpClientId := "cid", codeChallenge := none,
            codeChallengeMethod := none, timestamp := 0 })]
        (UpTokenResult.ok "gat") (UserFetchResult.ok "octo" "octo@mail")
        "mcp_tok" 5).1.status = 200 ∧
    (handleCallback (some "up") (some "s1") none
        [(String.append "session:" "s1", KVValue.session
          { mcpClientRequest := false, mcpRedirectUri := "http://localhost:6274/cb",
            mcpState := "st7", mcpClientId := "cid", codeChallenge := none,
            codeChallengeMethod := none, timestamp := 0 })]
        (UpTokenResult.ok "gat") (UserFetchResult.ok "octo" "octo@mail")
        "mcp_tok" 5).1.location = none := by
  decide

/-- C3 counterexample: a token created at time 0 with the 7-day TTL, queried
    one day later, still answers expires_in 604800 even though only 518400
    seconds remain until TTL expiry, so expires_in is not the seconds
    remaining. -/
theorem c3_expires_in_counterexample :
    (handleToken "POST" (some "authorization_code") (some "tok1") (some "cid")
        [(String.append "mcp_token:" "tok1", KVValue.token
          { githubToken := "g", userLogin := "u", userEmail := "e",
            createdAt := 0 })]).1.body = Body.tokenJson "tok1" "Bearer" 604800 ∧
    604800 ≠ (0 + 604800000 - 86400000) / 1000 := by
  decide

/-- C5 counterexample: a POST /authorize with no parameters at all (the MCP
    client pattern) is answered with a 302 redirect to the upstream GitHub
    URL, not with the claimed 400 invalid_request. -/
theorem c5_post_no_params_counterexample :
    (handleAuthorize "POST"
        { clientId := none, redirectUri := none, state := none,
          responseType := none, codeChallenge := none, codeChallengeMethod := none }
        "ghid" "https://srv.example" "gen1" "gen2" 0 []).1.status = 302 := by
  decide

/-- C9 counterexample: when the upstream exchange fails with a 400 response
    whose body is upstream raw body, the Google /callback route returns that
    Response itself: status 400 (not 5xx) and the raw upstream body forwarded
    unchanged. -/
theorem c9_google_forwards_upstream_counterexample :
    (googleCallback (some "cid") (some "code")
        (GoogleTokenResult.error 400 "upstream raw body")
        (GoogleUserResult.ok "id" "n" "e") "unused").status = 400 ∧
    ¬ 500 ≤ (googleCallback (some "cid") (some "code")
        (GoogleTokenResult.error 400 "upstream raw body")
        (GoogleUserResult.ok "id" "n" "e") "unused").status ∧
    (googleCallback (some "cid") (some "code")
        (GoogleTokenResult.error 400 "upstream raw body")
        (GoogleUserResult.ok "id" "n" "e") "unused").body =
      Body.text "upstream raw body" := by
  decide

/-- C3 (amended): a POST /token with grant_type authorization_code, a
    non-empty client_id and a code resolving to a stored token answers 200
    with access_token equal to the code, token_type Bearer and expires_in
    equal to the constant 604800 (the full 7-day TTL, regardless of the
    token's age); an unresolved code answers 400 invalid_grant. -/
theorem c3_token_endpoint_amended (kv : KV) (code cid : String)
    (hc : code ≠ "") (hcid : cid ≠ "") :
    ((kvGet kv (String.append "mcp_token:" code)).isSome = true →
      (handleToken "POST" (some "authorization_code") (some code) (some cid) kv).1 =
        { status := 200, body := Body.tokenJson code "Bearer" 604800, location := none }) ∧
    ((kvGet kv (String.append "mcp_token:" code)).isSome = false →
      (handleToken "POST" (some "authorization_code") (some code) (some cid) kv).1 =
        { status := 400, body := Body.jsonError "invalid_grant", location := none }) := by
  have hfc : falsy (some code) = false := by simp [falsy, hc]
  have hfcid : falsy (some cid) = false := by simp [falsy, hcid]
  constructor
  · intro hsome
    simp [handleToken, hfc, hfcid, hsome]
  · intro hnone
    simp [handleToken, hfc, hfcid, hnone]

/-- C3 amended witness at a concrete store. -/
theorem c3_token_endpoint_amended_witness :
    (handleToken "POST" (some "authorization_code") (some "tokW") (some "cidW")
        [(String.append "mcp_token:" "tokW", KVValue.token
          { githubToken := "g", userLogin := "u", userEmail := "e", createdAt := 3 })]).1 =
      { status := 200, body := Body.tokenJson "tokW" "Bearer" 604800, location := none } ∧
    (handleToken "POST" (some "authorization_code") (some "tokW") (some "cidW") []).1 =
      { status := 400, body := Body.jsonError "invalid_grant", location := none } :=
  ⟨(c3_token_endpoint_amended
      [(String.append "mcp_token:" "tokW", KVValue.token
        { githubToken := "g", userLogin := "u", userEmail := "e", createdAt := 3 })]
      "tokW" "cidW" (by decide) (by decide)).1 (by decide),
   (c3_token_endpoint_amended [] "tokW" "cidW" (by decide) (by decide)).2 (by decide)⟩

/-- C4: the /token exchange is an idempotent read.  With a valid grant_type,
    code and client_id, the handler leaves the store unchanged on every path;
    while the token is stored both of two successive calls answer 200, and
    once the token is gone from the store the same call answers 400
    invalid_grant. -/
theorem c4_token_exchange_idempotent_read (kv : KV) (code cid : String)
    (hc : code ≠ "") (hcid : cid ≠ "") :
    (handleToken "POST" (some "authorization_code") (some code) (some cid) kv).2 = kv ∧
    ((kvGet kv (String.append "mcp_token:" code)).isSome = true →
      (handleToken "POST" (some "authorization_code") (some code) (some cid) kv).1.status
        = 200 ∧
      (handleToken "POST" (some "authorization_code") (some code) (some cid)
        (handleToken "POST" (some "authorization_code") (some code) (some cid) kv).2).1.status
        = 200) ∧
    ((kvGet kv (String.append "mcp_token:" code)).isSome = false →
      (handleToken "POST" (some "authorization_code") (some code) (some cid) kv).1.status
        = 400 ∧
      (handleToken "POST" (some "authorization_code") (some code) (some cid) kv).1.body
        = Body.jsonError "invalid_grant") := by
  have hfc : falsy (some code) = false := by simp [falsy, hc]
  have hfcid : falsy (some cid) = false := by simp [falsy, hcid]
  have hkv : (handleToken "POST" (some "authorization_code") (some code) (some cid) kv).2
      = kv := by
    simp only [handleToken]
    split_ifs <;> rfl
  refine ⟨hkv, ?_, ?_⟩
  · intro hsome
    rw [hkv]
    constructor <;> simp [handleToken, hfc, hfcid, hsome]
  · intro hnone
    constructor <;> simp [handleToken, hfc, hfcid, hnone]

/-- C4 witness at a concrete store holding the token. -/
theorem c4_token_exchange_idempotent_read_witness :
    (handleToken "POST" (some "authorization_code") (some "tokX") (some "cidX")
        [(String.append "mcp_token:" "tokX", KVValue.token
          { githubToken := "g", userLogin := "u", userEmail := "e", createdAt := 0 })]).1.status
      = 200 ∧
    (handleToken "POST" (some "authorization_code") (some "tokX") (some "cidX")
        (handleToken "POST" (some "authorization_code") (some "tokX") (some "cidX")
          [(String.append "mcp_token:" "tokX", KVValue.token
            { githubToken := "g", userLogin := "u", userEmail := "e",
              createdAt := 0 })]).2).1.status = 200 :=
  (c4_token_exchange_idempotent_read
      [(String.append "mcp_token:" "tokX", KVValue.token
        { githubToken := "g", userLogin := "u", userEmail := "e", createdAt := 0 })]
      "tokX" "cidX" (by decide) (by decide)).2.1 (by decide)

/-- C8: the token verifier answers none when no IssuedToken is stored under
    the bearer token; when the stored record's created_at plus the 7-day TTL
    (604800000 ms) is earlier than now, it deletes the record (leaving every
    other key untouched) and answers none; otherwise it returns the stored
    record unchanged together with an unchanged store. -/
theorem c8_token_verifier (kv : KV) (tok : String) (now : Nat) :
    (getToken kv tok = none → verifyToken kv tok now = (none, kv)) ∧
    (∀ d, getToken kv tok = some d →
      (d.createdAt + 604800000 < now →
        (verifyToken kv tok now).1 = none ∧
        getToken (verifyToken kv tok now).2 tok = none ∧
        ∀ k2, k2 ≠ String.append "mcp_token:" tok →
          kvGet (verifyToken kv tok now).2 k2 = kvGet kv k2) ∧
      (¬ d.createdAt + 604800000 < now →
        verifyToken kv tok now = (some d, kv))) := by
  constructor
  · intro hnone
    rw [verifyToken]
    rcases hg : kvGet kv (String.append "mcp_token:" tok) with _ | v
    · rfl
    · cases v with
      | session sd => rfl
      | token td =>
        rw [getToken, hg] at hnone
        exact absurd hnone (by simp)
      | client doc => rfl
  · intro d hd
    rw [getToken] at hd
    rcases hg : kvGet kv (String.append "mcp_token:" tok) with _ | v
    · rw [hg] at hd; exact absurd hd (by simp)
    · cases v with
      | session sd => rw [hg] at hd; exact absurd hd (by simp)
      | client doc => rw [hg] at hd; exact absurd hd (by simp)
      | token td =>
        rw [hg] at hd
        have hdt : td = d := by
          have h2 : some td = some d := hd
          exact Option.some.inj h2
        subst hdt
        constructor
        · intro hexp
          have hcond : now - td.createdAt > 7 * 24 * 60 * 60 * 1000 := by omega
          have hv : verifyToken kv tok now =
              (none, kvDelete kv (String.append "mcp_token:" tok)) := by
            rw [verifyToken, hg]
            show (if now - td.createdAt > 7 * 24 * 60 * 60 * 1000 then
                (none, kvDelete kv (String.append "mcp_token:" tok))
              else (some td, kv)) = _
            rw [if_pos hcond]
          refine ⟨by rw [hv], ?_, ?_⟩
          · rw [hv, getToken, kvGet_kvDelete_self]
          · intro k2 hk2
            rw [hv]
            exact kvGet_kvDelete_other kv (String.append "mcp_token:" tok) k2 hk2
        · intro hexp
          have hcond : ¬ now - td.createdAt > 7 * 24 * 60 * 60 * 1000 := by omega
          rw [verifyToken, hg]
          show (if now - td.createdAt > 7 * 24 * 60 * 60 * 1000 then
              (none, kvDelete kv (String.append "mcp_token:" tok))
            else (some td, kv)) = _
          rw [if_neg hcond]

/-- C8 witness: a live token is returned unchanged, and an expired token is
    deleted on read. -/
theorem c8_token_verifier_witness :
    verifyToken
        [(String.append "mcp_token:" "tokV", KVValue.token
          { githubToken := "g", userLogin := "u", userEmail := "e", createdAt := 10 })]
        "tokV" 20 =
      (some { githubToken := "g", userLogin := "u", userEmail := "e", createdAt := 10 },
        [(String.append "mcp_token:" "tokV", KVValue.token
          { githubToken := "g", userLogin := "u", userEmail := "e", createdAt := 10 })]) ∧
    (verifyToken
        [(String.append "mcp_token:" "tokV", KVValue.token
          { githubToken := "g", userLogin := "u", userEmail := "e", createdAt := 10 })]
        "tokV" 700000000).1 = none :=
  ⟨((c8_token_verifier
      [(String.append "mcp_token:" "tokV", KVValue.token
        { githubToken := "g", userLogin := "u", userEmail := "e", createdAt := 10 })]
      "tokV" 20).2
      { githubToken := "g", userLogin := "u", userEmail := "e", createdAt := 10 }
      (by decide)).2 (by decide),
   (((c8_token_verifier
      [(String.append "mcp_token:" "tokV", KVValue.token
        { githubToken := "g", userLogin := "u", userEmail := "e", createdAt := 10 })]
      "tokV" 700000000).2
      { githubToken := "g", userLogin := "u", userEmail := "e", createdAt := 10 }
      (by decide)).1 (by decide)).1⟩

/-- C2 (amended): for a GET /callback whose state resolves to a stored
    session and whose upstream exchange and profile fetch succeed, the
    response is the claimed 302 redirect to the session's redirect_uri with
    the minted token as code and the session state echoed, unless the session
    is an MCP-client session or its redirect_uri contains localhost or
    callback as a substring, in which case the handler instead answers 200
    with an HTML success page embedding the token. -/
theorem c2_callback_redirect_amended (codeQ stateQ : Option String) (kv : KV)
    (sd : SessionData) (gat login email minted : String) (now : Nat)
    (hc : falsy codeQ = false) (hs : falsy stateQ = false)
    (hsess : getSession kv (stateQ.getD "") = some sd)
    (huri : sd.mcpRedirectUri ≠ "") :
    (sd.mcpClientRequest = false →
      strContains sd.mcpRedirectUri "localhost" = false →
      strContains sd.mcpRedirectUri "callback" = false →
      (handleCallback codeQ stateQ none kv (UpTokenResult.ok gat)
          (UserFetchResult.ok login email) minted now).1 =
        { status := 302, body := Body.empty,
          location := some (setCodeAndState sd.mcpRedirectUri minted sd.mcpState) }) ∧
    ((sd.mcpClientRequest = true ∨ strContains sd.mcpRedirectUri "localhost" = true ∨
        strContains sd.mcpRedirectUri "callback" = true) →
      (handleCallback codeQ stateQ none kv (UpTokenResult.ok gat)
          (UserFetchResult.ok login email) minted now).1 =
        { status := 200, body := Body.successHtml minted, location := none }) := by
  have hne : falsy (none : Option String) = true := rfl
  constructor
  · intro hmcp hloc hcb
    simp [handleCallback, hne, hc, hs, hsess, huri, hmcp, hloc, hcb]
  · intro hbr
    rcases hbr with hbr | hbr | hbr <;>
      simp [handleCallback, hne, hc, hs, hsess, huri, hbr]

/-- C2 amended witness: the redirecting branch at a concrete session. -/
theorem c2_callback_redirect_amended_witness :
    (handleCallback (some "upW") (some "sW") none
        [(String.append "session:" "sW", KVValue.session
          { mcpClientRequest := false, mcpRedirectUri := "https://client.example/cb",
            mcpState := "dsW", mcpClientId := "cidW", codeChallenge := none,
            codeChallengeMethod := none, timestamp := 0 })]
        (UpTokenResult.ok "gatW") (UserFetchResult.ok "loginW" "mailW")
        "mintW" 9).1 =
      { status := 302, body := Body.empty,
        location := some (setCodeAndState "https://client.example/cb" "mintW" "dsW") } :=
  (c2_callback_redirect_amended (some "upW") (some "sW")
      [(String.append "session:" "sW", KVValue.session
        { mcpClientRequest := false, mcpRedirectUri := "https://client.example/cb",
          mcpState := "dsW", mcpClientId := "cidW", codeChallenge := none,
          codeChallengeMethod := none, timestamp := 0 })]
      { mcpClientRequest := false, mcpRedirectUri := "https://client.example/cb",
        mcpState := "dsW", mcpClientId := "cidW", codeChallenge := none,
        codeChallengeMethod := none, timestamp := 0 }
      "gatW" "loginW" "mailW" "mintW" 9
      (by decide) (by decide) (by decide) (by decide)).1
    (by decide) (by decide) (by decide)

theorem string_append_ne (pre suf : String) (hpre : pre.length ≠ 0) :
    String.append pre suf ≠ suf := by
  intro h
  have hlen : (String.append pre suf).length = pre.length + suf.length := by
    show (pre ++ suf).length = pre.length + suf.length
    exact String.length_append pre suf
  rw [h] at hlen
  omega

/-- C9 (amended): when the upstream token exchange fails, the GitHub handler
    answers 500 with a body that wraps the upstream status and body in a
    prefixed message (context preserved, never byte-identical to the raw
    upstream body) and leaves the store unchanged; the Google handler instead
    returns the upstream error Response itself, with the upstream status
    (not necessarily 5xx) and the raw upstream body forwarded unchanged. -/
theorem c9_upstream_error_amended (codeQ stateQ : Option String) (kv : KV)
    (sd : SessionData) (st : Nat) (bodyText : String) (minted : String) (now : Nat)
    (ures : UserFetchResult)
    (hc : falsy codeQ = false) (hs : falsy stateQ = false)
    (hsess : getSession kv (stateQ.getD "") = some sd)
    (huri : sd.mcpRedirectUri ≠ "") :
    (handleCallback codeQ stateQ none kv (UpTokenResult.httpError st bodyText)
        ures minted now).1 =
      { status := 500,
        body := Body.text ("OAuth error: GitHub token exchange failed: " ++
          toString st ++ " " ++ bodyText),
        location := none } ∧
    (handleCallback codeQ stateQ none kv (UpTokenResult.httpError st bodyText)
        ures minted now).2 = kv ∧
    ("OAuth error: GitHub token exchange failed: " ++ toString st ++ " " ++ bodyText)
      ≠ bodyText ∧
    (∀ st2 b2 u rt,
      googleCallback (some "cid") (some "code") (GoogleTokenResult.error st2 b2) u rt =
        { status := st2, body := Body.text b2, location := none }) := by
  have hne : falsy (none : Option String) = true := rfl
  refine ⟨?_, ?_, ?_, ?_⟩
  · simp [handleCallback, hne, hc, hs, hsess, huri]
  · simp [handleCallback, hne, hc, hs, hsess, huri]
  · have h1 : ("OAuth error: GitHub token exchange failed: " ++ toString st ++ " " ++
        bodyText) = String.append ("OAuth error: GitHub token exchange failed: " ++
        toString st ++ " ") bodyText := rfl
    rw [h1]
    apply string_append_ne
    have h2 : ("OAuth error: GitHub token exchange failed: " ++ toString st ++ " ").length
        = ("OAuth error: GitHub token exchange failed: " ++ toString st).length + 1 := by
      show (("OAuth error: GitHub token exchange failed: " ++ toString st) ++ " ").length = _
      rw [String.length_append]
      rfl
    omega
  · intro st2 b2 u rt
    rfl

/-- C9 amended witness at concrete inputs. -/
theorem c9_upstream_error_amended_witness :
    (handleCallback (some "upZ") (some "sZ") none
        [(String.append "session:" "sZ", KVValue.session
          { mcpClientRequest := false, mcpRedirectUri := "https://client.example/cb",
            mcpState := "dsZ", mcpClientId := "cidZ", codeChallenge := none,
            codeChallengeMethod := none, timestamp := 0 })]
        (UpTokenResult.httpError 403 "bad_verification_code")
        (UserFetchResult.ok "l" "e") "mintZ" 4).1 =
      { status := 500,
        body := Body.text ("OAuth error: GitHub token exchange failed: " ++
          toString 403 ++ " " ++ "bad_verification_code"),
        location := none } :=
  (c9_upstream_error_amended (some "upZ") (some "sZ")
      [(String.append "session:" "sZ", KVValue.session
        { mcpClientRequest := false, mcpRedirectUri := "https://client.example/cb",
          mcpState := "dsZ", mcpClientId := "cidZ", codeChallenge := none,
          codeChallengeMethod := none, timestamp := 0 })]
      { mcpClientRequest := false, mcpRedirectUri := "https://client.example/cb",
        mcpState := "dsZ", mcpClientId := "cidZ", codeChallenge := none,
        codeChallengeMethod := none, timestamp := 0 }
      403 "bad_verification_code" "mintZ" 4 (UserFetchResult.ok "l" "e")
      (by decide) (by decide) (by decide) (by decide)).1

/-- C7: signing a client-id list and verifying the resulting cookie value
    recovers exactly the list; conversely verification succeeds only on a
    cookie that splits into a payload and a signature whose decoded bytes
    equal the MAC of that payload and whose payload parses back, so any
    signature mismatch or malformed payload is rejected with none (the
    verifier is a total function: no uncaught exception). -/
theorem c7_cookie_sign_verify (key : List Nat) :
    (∀ l, verifyCookie key (signCookie key l) = some l) ∧
    (∀ c l, verifyCookie key c = some l →
      ∃ p s rest, splitOnDots c = p :: s :: rest ∧
        decBytes s = some (macModel key p) ∧ decodeClientIds p = some l) :=
  ⟨fun l => verify_sign key l, fun c l h => verifyCookie_inversion key c l h⟩

/-- C7 witness: both conjuncts at the concrete key [5] and list [[2], [3]]. -/
theorem c7_cookie_sign_verify_witness :
    verifyCookie [5] (signCookie [5] [[2], [3]]) = some [[2], [3]] ∧
    ∃ p s rest, splitOnDots (signCookie [5] [[2], [3]]) = p :: s :: rest ∧
      decBytes s = some (macModel [5] p) ∧ decodeClientIds p = some [[2], [3]] :=
  ⟨(c7_cookie_sign_verify [5]).1 [[2], [3]],
   (c7_cookie_sign_verify [5]).2 (signCookie [5] [[2], [3]]) [[2], [3]] (by decide)⟩

theorem clientIdAlreadyApprovedM_eq_true_iff (key : List Nat)
    (cookieVal : Option (List Nat)) (cid : List Nat) :
    clientIdAlreadyApprovedM key cookieVal cid = true ↔
      ∃ c l, cookieVal = some c ∧ verifyCookie key c = some l ∧ cid ∈ l := by
  constructor
  · intro h
    rcases cookieVal with _ | c
    · exact absurd h (by simp [clientIdAlreadyApprovedM])
    · rw [clientIdAlreadyApprovedM] at h
      rcases hv : verifyCookie key c with _ | l
      · rw [hv] at h
        exact absurd h (by simp)
      · rw [hv] at h
        have h2 : l.contains cid = true := h
        exact ⟨c, l, rfl, hv, List.mem_of_elem_eq_true h2⟩
  · rintro ⟨c, l, rfl, hv, hmem⟩
    rw [clientIdAlreadyApprovedM, hv]
    show l.contains cid = true
    exact List.elem_eq_true_of_mem hmem

/-- C6 counterexample: the GitHub handler's GET /authorize with valid
    client_id, redirect_uri and response_type=code never consults an
    approval cookie and never renders a consent page: with no cookie in the
    request at all it answers 302 straight to the upstream URL. -/
theorem c6_github_no_consent_counterexample :
    (handleAuthorize "GET"
        { clientId := some "cidC6", redirectUri := some "https://c.example/cb",
          state := some "stC6", responseType := some "code", codeChallenge := none,
          codeChallengeMethod := none }
        "ghid" "https://srv.example" "g1" "g2" 0 []).1.status = 302 := by
  decide

/-- C6 (amended): for the Google handler's GET /authorize with a valid
    client id and an arbitrary cookie value, the response is the 302 upstream
    redirect exactly when the presented cookie verifies under the key to a
    client-id list containing the client id; in every other case — cookie
    absent, signature mismatch (tampered), malformed payload, or a valid
    cookie whose list does not contain the client id — the response is the
    HTML consent page (status 200, no redirect).  The GitHub handler's GET
    /authorize with valid client_id, redirect_uri and response_type=code
    instead answers the 302 upstream redirect unconditionally, for every
    request and store: it never renders a consent page. -/
theorem c6_consent_gate (key cid : List Nat) (cookieVal : Option (List Nat))
    (gClientId redirectUri stateB64 : String) (hcid : cid ≠ []) :
    (googleAuthorizeGet key (some cid) cookieVal gClientId redirectUri stateB64 =
        { status := 302, body := Body.empty,
          location := some (getUpstreamAuthorizeUrl
            "https://accounts.google.com/o/oauth2/v2/auth" gClientId redirectUri
            "openid email profile" stateB64 none) } ↔
      ∃ c l, cookieVal = some c ∧ verifyCookie key c = some l ∧ cid ∈ l) ∧
    (googleAuthorizeGet key (some cid) cookieVal gClientId redirectUri stateB64 =
        { status := 302, body := Body.empty,
          location := some (getUpstreamAuthorizeUrl
            "https://accounts.google.com/o/oauth2/v2/auth" gClientId redirectUri
            "openid email profile" stateB64 none) } ∨
      googleAuthorizeGet key (some cid) cookieVal gClientId redirectUri stateB64 =
        { status := 200, body := Body.consentHtml cid, location := none }) ∧
    (∀ (p : AuthorizeParams) (ghClientId origin genState genSession : String)
        (now : Nat) (kv : KV),
      falsy p.clientId = false → falsy p.redirectUri = false →
      p.responseType = some "code" →
      (handleAuthorize "GET" p ghClientId origin genState genSession now kv).1 =
        { status := 302, body := Body.empty,
          location := some (githubAuthUrl ghClientId origin genSession) }) := by
  have hfa : falsyL (some cid) = false := by
    cases cid with
    | nil => exact absurd rfl hcid
    | cons a t => rfl
  have hred : googleAuthorizeGet key (some cid) cookieVal gClientId redirectUri stateB64 =
      if clientIdAlreadyApprovedM key cookieVal cid then
        { status := 302, body := Body.empty,
          location := some (getUpstreamAuthorizeUrl
            "https://accounts.google.com/o/oauth2/v2/auth" gClientId redirectUri
            "openid email profile" stateB64 none) }
      else { status := 200, body := Body.consentHtml cid, location := none } := by
    simp [googleAuthorizeGet, hfa]
  refine ⟨?_, ?_, ?_⟩
  · rcases hb : clientIdAlreadyApprovedM key cookieVal cid with _ | _
    · rw [hred, hb, if_neg (by simp)]
      constructor
      · intro h
        have h2 : (200 : Nat) = 302 := congrArg HttpResponse.status h
        exact absurd h2 (by decide)
      · intro h
        have h2 : clientIdAlreadyApprovedM key cookieVal cid = true :=
          (clientIdAlreadyApprovedM_eq_true_iff key cookieVal cid).mpr h
        rw [hb] at h2
        exact absurd h2 (by decide)
    · rw [hred, hb, if_pos (by simp)]
      constructor
      · intro h
        exact (clientIdAlreadyApprovedM_eq_true_iff key cookieVal cid).mp hb
      · intro h
        rfl
  · rcases hb : clientIdAlreadyApprovedM key cookieVal cid with _ | _
    · right
      rw [hred, hb, if_neg (by simp)]
    · left
      rw [hred, hb, if_pos (by simp)]
  · intro p ghClientId origin genState genSession now kv h1 h2 h3
    simp [handleAuthorize, h1, h2, h3]

/-- C6 witness: redirect with an approving signed cookie under key [7] for
    client id [3], and the GitHub 302 at concrete valid parameters. -/
theorem c6_consent_gate_witness :
    googleAuthorizeGet [7] (some [3]) (some (signCookie [7] [[3]])) "gid"
        "https://srv.example/callback" "stb" =
      { status := 302, body := Body.empty,
        location := some (getUpstreamAuthorizeUrl
          "https://accounts.google.com/o/oauth2/v2/auth" "gid"
          "https://srv.example/callback" "openid email profile" "stb" none) } ∧
    (handleAuthorize "GET"
        { clientId := some "cidG", redirectUri := some "https://c.example/cb",
          state := some "stG", responseType := some "code", codeChallenge := none,
          codeChallengeMethod := none }
        "ghid" "https://srv.example" "g1" "g2" 0 []).1 =
      { status := 302, body := Body.empty,
        location := some (githubAuthUrl "ghid" "https://srv.example" "g2") } :=
  ⟨(c6_consent_gate [7] [3] (some (signCookie [7] [[3]])) "gid"
      "https://srv.example/callback" "stb" (by decide)).1.mpr
    ⟨signCookie [7] [[3]], [[3]], rfl, by decide, by decide⟩,
   (c6_consent_gate [7] [3] (some (signCookie [7] [[3]])) "gid"
      "https://srv.example/callback" "stb" (by decide)).2.2
    { clientId := some "cidG", redirectUri := some "https://c.example/cb",
      state := some "stG", responseType := some "code", codeChallenge := none,
      codeChallengeMethod := none }
    "ghid" "https://srv.example" "g1" "g2" 0 [] (by decide) (by decide) (by decide)⟩

/-- C10: a successful consent approval re-signs a cookie whose list is the
    previously recovered list with the submitted client id appended exactly
    when it was not already present (order preserved); when the prior list
    holds the id at most once the new list holds it exactly once; and the
    recovered list starts empty when the prior cookie is absent or fails
    verification. -/
theorem c10_approval_cookie_append (key cid : List Nat) (cookieVal : Option (List Nat))
    (hcid : cid ≠ [])
    (hcount : (recoverApproved key cookieVal).count cid ≤ 1) :
    parseRedirectApprovalM key (some cid) (some approveAction) cookieVal =
      { approved := true, clientId := cid,
        updatedCookie := some (signCookie key
          (if cid ∈ recoverApproved key cookieVal then recoverApproved key cookieVal
           else recoverApproved key cookieVal ++ [cid])) } ∧
    (if cid ∈ recoverApproved key cookieVal then recoverApproved key cookieVal
     else recoverApproved key cookieVal ++ [cid]).count cid = 1 ∧
    recoverApproved key none = [] ∧
    (∀ c, verifyCookie key c = none → recoverApproved key (some c) = []) := by
  refine ⟨?_, ?_, rfl, ?_⟩
  · rw [parseRedirectApprovalM]
    have hcond : ¬ (cid = [] ∨ some approveAction ≠ some approveAction) := by
      intro h
      rcases h with h | h
      · exact hcid h
      · exact h rfl
    rw [if_neg hcond]
  · by_cases hmem : cid ∈ recoverApproved key cookieVal
    · rw [if_pos hmem]
      have hpos : 0 < (recoverApproved key cookieVal).count cid :=
        List.count_pos_iff.mpr hmem
      omega
    · rw [if_neg hmem]
      rw [List.count_append]
      have hzero : (recoverApproved key cookieVal).count cid = 0 :=
        List.count_eq_zero.mpr hmem
      rw [hzero]
      simp
  · intro c hvc
    rw [recoverApproved, hvc]
    rfl

/-- C10 witness: approving client id [4] over a validly signed prior cookie
    listing [9]. -/
theorem c10_approval_cookie_append_witness :
    parseRedirectApprovalM [6] (some [4]) (some approveAction)
        (some (signCookie [6] [[9]])) =
      { approved := true, clientId := [4],
        updatedCookie := some (signCookie [6] [[9], [4]]) } :=
  (c10_approval_cookie_append [6] [4] (some (signCookie [6] [[9]]))
      (by decide) (by decide)).1.trans (by decide)

/-- C5 (amended): a method other than GET or POST answers 405, and a GET
    /authorize missing client_id or redirect_uri or with response_type other
    than code answers 400 invalid_request; but a POST /authorize in which
    client_id, redirect_uri or the (possibly generated) state is missing is
    treated as an MCP-client request and answered with a 302 redirect
    upstream instead of 400; a POST with all three present and response_type
    other than code answers 400. -/
theorem c5_authorize_validation_amended (method : String) (p : AuthorizeParams)
    (ghClientId origin genState genSession : String) (now : Nat) (kv : KV) :
    (method ≠ "GET" → method ≠ "POST" →
      (handleAuthorize method p ghClientId origin genState genSession now kv).1.status
        = 405) ∧
    (method = "GET" →
      (falsy p.clientId = true ∨ falsy p.redirectUri = true ∨
        p.responseType ≠ some "code") →
      (handleAuthorize method p ghClientId origin genState genSession now kv).1 =
        { status := 400,
          body := Body.jsonErrorDesc "invalid_request"
            "Missing required parameters: client_id, redirect_uri, response_type=code",
          location := none }) ∧
    (method = "POST" →
      (falsy p.clientId = true ∨ falsy p.redirectUri = true ∨
        falsy (stateAfterGen p genState) = true) →
      (handleAuthorize method p ghClientId origin genState genSession now kv).1 =
        { status := 302, body := Body.empty,
          location := some (githubAuthUrl ghClientId origin genSession) }) ∧
    (method = "POST" → falsy p.clientId = false → falsy p.redirectUri = false →
      falsy (stateAfterGen p genState) = false → p.responseType ≠ some "code" →
      (handleAuthorize method p ghClientId origin genState genSession now kv).1 =
        { status := 400,
          body := Body.jsonErrorDesc "invalid_request"
            "Missing required parameters: client_id, redirect_uri, response_type=code",
          location := none }) := by
  refine ⟨?_, ?_, ?_, ?_⟩
  · intro hg hp
    simp [handleAuthorize, hg, hp]
  · intro hm hbad
    subst hm
    rcases hbad with hb | hb | hb <;>
      simp [handleAuthorize, hb]
  · intro hm hbad
    subst hm
    rcases hbad with hb | hb | hb <;>
      simp [handleAuthorize, hb]
  · intro hm h1 h2 h3 h4
    subst hm
    simp [handleAuthorize, h1, h2, h3, h4]

/-- C5 amended witness: a GET missing client_id answers 400 and a POST with a
    response_type other than code but a complete parameter set answers 400,
    while an unsupported method answers 405. -/
theorem c5_authorize_validation_amended_witness :
    (handleAuthorize "GET"
        { clientId := none, redirectUri := some "https://c.example/cb",
          state := some "st", responseType := some "code", codeChallenge := none,
          codeChallengeMethod := none }
        "ghid" "https://srv.example" "g1" "g2" 0 []).1 =
      { status := 400,
        body := Body.jsonErrorDesc "invalid_request"
          "Missing required parameters: client_id, redirect_uri, response_type=code",
        location := none } ∧
    (handleAuthorize "DELETE"
        { clientId := none, redirectUri := none, state := none,
          responseType := none, codeChallenge := none, codeChallengeMethod := none }
        "ghid" "https://srv.example" "g1" "g2" 0 []).1.status = 405 :=
  ⟨(c5_authorize_validation_amended "GET"
      { clientId := none, redirectUri := some "https://c.example/cb",
        state := some "st", responseType := some "code", codeChallenge := none,
        codeChallengeMethod := none }
      "ghid" "https://srv.example" "g1" "g2" 0 []).2.1 rfl (Or.inl (by decide)),
   (c5_authorize_validation_amended "DELETE"
      { clientId := none, redirectUri := none, state := none,
        responseType := none, codeChallenge := none, codeChallengeMethod := none }
      "ghid" "https://srv.example" "g1" "g2" 0 []).1 (by decide) (by decide)⟩

end FlodeskMcp
